import Mathlib

/-!
Verification of the render-proxy OAuth/emote proxy server (src/server.js).

The source file contains two near-identical Express server variants:
variant 1 (lines 1-180) and variant 2 (lines 181-473).  Each route handler
is embedded below as a pure Lean function from the request data and an
oracle describing the upstream HTTP world to the response the handler
sends, together with a trace of the outbound calls it performs.

JavaScript runtime semantics relevant to the handlers (truthiness, member
access throwing a TypeError on null/undefined, optional chaining, string
coercion in template literals) are modelled explicitly on a small JSON
value type extended with the JavaScript undefined value.
-/

set_option autoImplicit false

/-- A JavaScript/JSON value as seen by the handlers.  The extra `undefined`
constructor models the JavaScript value undefined, which arises from
accessing a missing object property and is dropped by JSON serialization
of response bodies. -/
inductive Json where
  | undefined
  | null
  | bool (b : Bool)
  | num (n : Int)
  | str (s : String)
  | arr (elems : List Json)
  | obj (fields : List (String × Json))

/-- Lookup of a key in a JavaScript object literal, yielding undefined when
the key is absent (as property access on an object does in JavaScript). -/
def findField : List (String × Json) → String → Json
  | [], _ => .undefined
  | (k, v) :: rest, key => if k == key then v else findField rest key

/-- Property access notation obj.k in JavaScript: throws a TypeError when the
receiver is null or undefined, yields undefined for a missing property or a
non-object primitive receiver.  The error is a String message carried in
the Except error channel, matching the Error objects caught by the
try/catch blocks in the handlers. -/
def jsMember (j : Json) (k : String) : Except String Json :=
  match j with
  | .null => .error ("Cannot read properties of null (reading " ++ k ++ ")")
  | .undefined => .error ("Cannot read properties of undefined (reading " ++ k ++ ")")
  | .obj fields => .ok (findField fields k)
  | _ => .ok .undefined

/-- Optional-chaining access obj?.k in JavaScript: yields undefined instead of
throwing when the receiver is null or undefined. -/
def jsMemberOpt (j : Json) (k : String) : Json :=
  match j with
  | .null => .undefined
  | .undefined => .undefined
  | .obj fields => findField fields k
  | _ => .undefined

/-- JavaScript truthiness of a value, as used by the if (!x) guards in the
handlers. -/
def jsTruthy : Json → Bool
  | .undefined => false
  | .null => false
  | .bool b => b
  | .num n => n != 0
  | .str s => !s.isEmpty
  | .arr _ => true
  | .obj _ => true

mutual

/-- JavaScript string coercion of a value, as performed inside template
literals and by URLSearchParams on its values. -/
def jsToDisplay : Json → String
  | .undefined => "undefined"
  | .null => "null"
  | .bool b => if b then "true" else "false"
  | .num n => toString n
  | .str s => s
  | .arr xs => jsArrDisplay xs
  | .obj _ => "[object Object]"

/-- JavaScript string coercion of an array: elements joined by commas. -/
def jsArrDisplay : List Json → String
  | [] => ""
  | [x] => jsToDisplay x
  | x :: y :: xs => jsToDisplay x ++ "," ++ jsArrDisplay (y :: xs)

end

/-- Whether a key is present in a JSON object body (used to state that a
response body carries no refresh token field). -/
def hasKey : Json → String → Bool
  | .obj fields, k => fields.any (fun p => p.1 == k)
  | _, _ => false

/-- An upstream HTTP response as observed through fetch: status code, the
content-type header (absent when the upstream sent none), the body as text
(response.text()), the body as parsed JSON (response.json(), whose error
case models the SyntaxError thrown on an unparseable body, carrying the
runtime error message), and the raw bytes (response.arrayBuffer()). -/
structure UpstreamResp where
  status : Nat
  contentType : Option String
  textBody : String
  jsonBody : Except String Json
  bytes : List Nat

/-- The outcome of one fetch call: either a response or a thrown
transport-level error carrying its message. -/
inductive FetchOutcome where
  | success (r : UpstreamResp)
  | failure (msg : String)

/-- The response.ok predicate of the fetch API: status in the range 200-299. -/
def statusOk (s : Nat) : Bool := 200 ≤ s && s < 300

/-- Truthiness of an environment-style string value (undefined or the empty
string are falsy, as in JavaScript). -/
def optStrTruthy : Option String → Bool
  | some s => !s.isEmpty
  | none => false

/-- Character-list helper: does the second list start with the first. -/
def isPrefixChars : List Char → List Char → Bool
  | [], _ => true
  | _ :: _, [] => false
  | a :: as, b :: bs => a == b && isPrefixChars as bs

/-- Character-list helper: does the second list contain the first as a
contiguous run. -/
def containsChars (pat : List Char) : List Char → Bool
  | [] => isPrefixChars pat []
  | c :: rest => isPrefixChars pat (c :: rest) || containsChars pat rest

/-- The String.prototype.includes check used by the handlers. -/
def strHas (s pat : String) : Bool := containsChars pat.toList s.toList

/-- The content-type acceptance check of the user-lookup handler, from
if (!contentType || !contentType.includes(&quot;application/json&quot;)) in
src/server.js line 348: the header must be present, truthy and mention
application/json. -/
def jsonCtOk (ct : Option String) : Bool :=
  optStrTruthy ct && strHas (ct.getD "") "application/json"

/-- Display of the content-type header value inside the template literal of
the error message (a null header renders as the string null). -/
def ctDisplay (ct : Option String) : String :=
  match ct with
  | some c => c
  | none => "null"

/-! ## The /oauth/exchange handlers (both variants)

Variant 1: src/server.js lines 73-138.  Variant 2: lines 240-297.
The request body fields code, redirect_uri and code_verifier are the values
destructured from req.body.  The configured credentials are the resolved
CLIENT_ID/CLIENT_SECRET environment values (variant 1, lines 26-27) or the
SERVER_OAUTH_CONFIG credentials (variant 2); a missing environment variable
is the none case.  The oracle is the outcome of the single outbound fetch
to the token endpoint, consulted only if the handler reaches it. -/

/-- Result of an /oauth/exchange handler: the HTTP status and JSON body sent
to the client, and the form bodies of the outbound token calls performed,
in order (empty when no outbound call was made). -/
structure ExchangeResult where
  status : Nat
  body : Json
  outbound : List (List (String × String))

/-- The URLSearchParams form body built for the outbound token request
(src/server.js lines 103-110 and 258-265); URLSearchParams coerces an
undefined credential to the string undefined. -/
def tokenFormParams (cid csec : Option String) (code ru cv : Json) : List (String × String) :=
  [("grant_type", "authorization_code"),
   ("client_id", cid.getD "undefined"),
   ("client_secret", csec.getD "undefined"),
   ("code", jsToDisplay code),
   ("redirect_uri", jsToDisplay ru),
   ("code_verifier", jsToDisplay cv)]

/-- The isConfigValid check of variant 1 (src/server.js lines 30-32):
CLIENT_ID and CLIENT_SECRET are both truthy. -/
def isConfigValid (cid csec : Option String) : Bool :=
  optStrTruthy cid && optStrTruthy csec

/-- The success response body of variant 1 (src/server.js lines 128-132):
only access_token, token_type and expires_in are copied from the upstream
token data.  Member access on a null or undefined token body throws, which
the surrounding catch turns into a 500. -/
def buildTokenBody1 (td : Json) : Except String Json := do
  let a ← jsMember td "access_token"
  let t ← jsMember td "token_type"
  let e ← jsMember td "expires_in"
  pure (.obj [("access_token", a), ("token_type", t), ("expires_in", e)])

/-- The success response body of variant 2 (src/server.js lines 283-288):
access_token, token_type, expires_in and scope. -/
def buildTokenBody2 (td : Json) : Except String Json := do
  let a ← jsMember td "access_token"
  let t ← jsMember td "token_type"
  let e ← jsMember td "expires_in"
  let sc ← jsMember td "scope"
  pure (.obj [("access_token", a), ("token_type", t), ("expires_in", e), ("scope", sc)])

/-- The error body for a missing required request field (src/server.js
lines 84-86 and 247-249, identical in both variants). -/
def missingParamsBody : Json :=
  .obj [("error", .str "Missing required parameters: code, redirect_uri, code_verifier")]

/-- The /oauth/exchange handler of variant 1 (src/server.js lines 73-138).
The source guards with early returns if (!code || !redirect_uri ||
!code_verifier) and then if (!isConfigValid()); here the same branches
appear as nested if-then-else. -/
def oauthExchange1 (code ru cv : Json) (cid csec : Option String) (o : FetchOutcome) : ExchangeResult :=
  if jsTruthy code && jsTruthy ru && jsTruthy cv then
    if isConfigValid cid csec then
      let sent := [tokenFormParams cid csec code ru cv]
      match o with
      | .failure _ => ⟨500, .obj [("error", .str "Internal server error")], sent⟩
      | .success r =>
        if statusOk r.status then
          match r.jsonBody with
          | .error _ => ⟨500, .obj [("error", .str "Internal server error")], sent⟩
          | .ok td =>
            match buildTokenBody1 td with
            | .error _ => ⟨500, .obj [("error", .str "Internal server error")], sent⟩
            | .ok b => ⟨200, b, sent⟩
        else
          ⟨r.status, .obj [("error", .str "Token exchange failed"), ("details", .str r.textBody)], sent⟩
    else
      ⟨500, .obj [("error", .str "Server configuration error - missing credentials")], []⟩
  else
    ⟨400, missingParamsBody, []⟩

/-- The /oauth/exchange handler of variant 2 (src/server.js lines 240-297).
Unlike variant 1 it performs no configuration check before the outbound
call, and its catch branch reports the error message in a details field. -/
def oauthExchange2 (code ru cv : Json) (cid csec : Option String) (o : FetchOutcome) : ExchangeResult :=
  if jsTruthy code && jsTruthy ru && jsTruthy cv then
    let sent := [tokenFormParams cid csec code ru cv]
    match o with
    | .failure msg =>
      ⟨500, .obj [("error", .str "Internal server error"), ("details", .str msg)], sent⟩
    | .success r =>
      if statusOk r.status then
        match r.jsonBody with
        | .error msg =>
          ⟨500, .obj [("error", .str "Internal server error"), ("details", .str msg)], sent⟩
        | .ok td =>
          match buildTokenBody2 td with
          | .error msg =>
            ⟨500, .obj [("error", .str "Internal server error"), ("details", .str msg)], sent⟩
          | .ok b => ⟨200, b, sent⟩
      else
        ⟨r.status, .obj [("error", .str "Token exchange failed"), ("details", .str r.textBody)], sent⟩
  else
    ⟨400, missingParamsBody, []⟩

/-! ## The /proxy/emote/:emoteId handlers (both variants)

Variant 1: src/server.js lines 35-70.  Variant 2: lines 202-237.  The two
handler bodies are textually identical in the source; they are embedded as
two definitions with identical bodies.  The baseHeaders argument is
whatever response headers earlier middleware (the CORS layer) already set;
res.set overwrites a header that is already present. -/

/-- Result of an emote relay request: status, response headers, the JSON
error body if any, and the relayed bytes if any. -/
structure EmoteResult where
  status : Nat
  headers : List (String × String)
  body : Option Json
  bytes : Option (List Nat)

/-- The res.set semantics for one header: replace an existing entry for the
same name, otherwise append. -/
def setHeader : List (String × String) → String → String → List (String × String)
  | [], k, v => [(k, v)]
  | (k0, v0) :: rest, k, v =>
    if k0 == k then (k, v) :: rest else (k0, v0) :: setHeader rest k v

/-- The res.set semantics for a header object: apply each pair in order. -/
def setAll (hs : List (String × String)) : List (String × String) → List (String × String)
  | [] => hs
  | (k, v) :: rest => setAll (setHeader hs k v) rest

/-- Header lookup in a response header list. -/
def getHeader : List (String × String) → String → Option String
  | [], _ => none
  | (k0, v0) :: rest, k => if k0 == k then some v0 else getHeader rest k

/-- The relayed content type (src/server.js line 50): the upstream
content-type header when present and truthy, else image/gif. -/
def emoteContentType (ct : Option String) : String :=
  match ct with
  | some c => if c.isEmpty then "image/gif" else c
  | none => "image/gif"

/-- The /proxy/emote/:emoteId handler of variant 1 (src/server.js
lines 35-70). -/
def proxyEmote1 (baseHeaders : List (String × String)) (o : FetchOutcome) : EmoteResult :=
  match o with
  | .failure _ =>
    ⟨500, baseHeaders, some (.obj [("error", .str "Internal server error")]), none⟩
  | .success r =>
    if statusOk r.status then
      let hs := setAll baseHeaders
        [("Content-Type", emoteContentType r.contentType),
         ("Access-Control-Allow-Origin", "*"),
         ("Access-Control-Allow-Methods", "GET"),
         ("Access-Control-Allow-Headers", "Content-Type"),
         ("Cache-Control", "public, max-age=3600")]
      ⟨200, hs, none, some r.bytes⟩
    else
      ⟨r.status, baseHeaders, some (.obj [("error", .str "Failed to fetch emote")]), none⟩

/-- The /proxy/emote/:emoteId handler of variant 2 (src/server.js
lines 202-237), textually identical to variant 1 in the source. -/
def proxyEmote2 (baseHeaders : List (String × String)) (o : FetchOutcome) : EmoteResult :=
  match o with
  | .failure _ =>
    ⟨500, baseHeaders, some (.obj [("error", .str "Internal server error")]), none⟩
  | .success r =>
    if statusOk r.status then
      let hs := setAll baseHeaders
        [("Content-Type", emoteContentType r.contentType),
         ("Access-Control-Allow-Origin", "*"),
         ("Access-Control-Allow-Methods", "GET"),
         ("Access-Control-Allow-Headers", "Content-Type"),
         ("Cache-Control", "public, max-age=3600")]
      ⟨200, hs, none, some r.bytes⟩
    else
      ⟨r.status, baseHeaders, some (.obj [("error", .str "Failed to fetch emote")]), none⟩

/-! ## The /get-kick-user handler (variant 2 only)

src/server.js lines 300-417.  The handler walks a fixed ordered list of
candidate endpoints; each iteration runs inside a try/catch whose catch
records the error as lastError and continues with the next candidate.  The
oracle maps a URL to the outcome of fetching it; it serves both the
candidate fetches and the secondary channel-info fetch. -/

/-- Result of a /get-kick-user request: the status and JSON body sent to
the client, the candidate endpoints fetched in order, and the secondary
channel-lookup URLs fetched. -/
structure UserLookupResult where
  status : Nat
  body : Json
  candidateCalls : List String
  channelCalls : List String

/-- The ordered candidate endpoint list (src/server.js lines 313-319).
The second entry is built from the configured api_base of
SERVER_OAUTH_CONFIG, supplied here as a parameter. -/
def kickUserEndpoints (apiBase : String) : List String :=
  ["https://api.kick.com/public/v1/users",
   apiBase ++ "/user",
   "https://kick.com/api/v1/user",
   "https://kick.com/api/v2/user/me",
   "https://kick.com/api/v1/user/me"]

/-- The substring that selects the new-style response handling
(src/server.js line 359). -/
def newStyleMarker : String := "api.kick.com/public/v1/users"

/-- One candidate fetch reduced to its parsed JSON body (src/server.js
lines 327-355): a thrown fetch is the transport error, a non-success
status or a non-JSON content-type produce the recorded error messages of
lines 340 and 351, and an unparseable body rethrows the parse error of
response.json(). -/
def fetchToJson (f : FetchOutcome) : Except String Json :=
  match f with
  | .failure msg => .error msg
  | .success r =>
    if statusOk r.status then
      if jsonCtOk r.contentType then
        r.jsonBody
      else
        .error ("Expected JSON response but got: " ++ ctDisplay r.contentType)
    else
      .error ("API request failed: " ++ toString r.status ++ " - " ++ r.textBody)

/-- The secondary chatroom-id lookup (src/server.js lines 366-382): the
variable starts as null and is only assigned when the channel fetch
succeeds; any error inside the inner try (transport, parse, or member
access on a null channel body) is swallowed, leaving null.  A missing
chatroom or id property yields undefined via the optional chain. -/
def channelLookup (o : String → FetchOutcome) (churl : String) : Json :=
  match o churl with
  | .failure _ => .null
  | .success cr =>
    if statusOk cr.status then
      match cr.jsonBody with
      | .error _ => .null
      | .ok channelData =>
        match jsMember channelData "chatroom" with
        | .error _ => .null
        | .ok chr => jsMemberOpt chr "id"
    else .null

/-- The post-acceptance processing of one candidate body (src/server.js
lines 358-398).  For the new-style endpoint with a non-empty data array
(the pattern arr (user :: _) is exactly the source condition
userData.data truthy, an array, and of positive length) the result is the
normalized profile; member access on a null body or a null first element
throws, and the error propagates to the per-candidate catch.  In every
other case the body is returned as-is.  The second component lists the
channel-lookup calls made. -/
def processAccepted (o : String → FetchOutcome) (e : String) (userData : Json) :
    Except String (Json × List String) := do
  if strHas e newStyleMarker then
    let dataF ← jsMember userData "data"
    match dataF with
    | .arr (user :: _) =>
      let uname ← jsMember user "name"
      let churl := "https://kick.com/api/v1/channels/" ++ jsToDisplay uname
      let chatroomId := channelLookup o churl
      let uid ← jsMember user "user_id"
      let uem ← jsMember user "email"
      let upic ← jsMember user "profile_picture"
      pure (.obj [("id", uid), ("username", uname), ("email", uem),
                  ("profile_picture", upic),
                  ("chatroom", .obj [("id", chatroomId)])], [churl])
    | _ => pure (userData, [])
  else pure (userData, [])

/-- One full iteration of the candidate loop: fetch, acceptance checks, and
post-acceptance processing, any of whose errors land in the per-candidate
catch. -/
def candidateStep (o : String → FetchOutcome) (e : String) :
    Except String (Json × List String) := do
  let userData ← fetchToJson (o e)
  processAccepted o e userData

/-- The candidate loop with the running lastError (src/server.js
lines 321-416): the first candidate whose step succeeds produces the 200
response; when the list is exhausted the handler throws lastError (or a
fresh all-endpoints-failed error) and the outer catch sends 500 with the
error message as details. -/
def runCandidates (o : String → FetchOutcome) :
    List String → Option String → UserLookupResult
  | [], lastErr =>
    ⟨500, .obj [("error", .str "Internal server error"),
                ("details", .str (lastErr.getD "All API endpoints failed"))], [], []⟩
  | e :: rest, _lastErr =>
    match candidateStep o e with
    | .ok (body, chCalls) => ⟨200, body, [e], chCalls⟩
    | .error m =>
      let r := runCandidates o rest (some m)
      ⟨r.status, r.body, e :: r.candidateCalls, r.channelCalls⟩

/-- The /get-kick-user handler (src/server.js lines 300-417). -/
def getKickUser (access_token : Json) (apiBase : String)
    (o : String → FetchOutcome) : UserLookupResult :=
  if jsTruthy access_token then
    runCandidates o (kickUserEndpoints apiBase) none
  else
    ⟨400, .obj [("error", .str "Missing required parameter: access_token")], [], []⟩

/-! ## Spec-side definitions

These follow the wording of the specification, for comparison with the
behavior of the embedded handlers. -/

/-- Whether an Except value is a success. -/
def exceptOk {α β : Type} : Except α β → Bool
  | .ok _ => true
  | .error _ => false

/-- The acceptance condition for a candidate response as the specification
words it: a success HTTP status, a JSON content-type, and a body that is
valid JSON; a thrown fetch is never accepted. -/
def claimAccepts (f : FetchOutcome) : Bool :=
  match f with
  | .failure _ => false
  | .success r => statusOk r.status && jsonCtOk r.contentType && exceptOk r.jsonBody

/-- The candidate call trace the specification describes: the endpoints are
tried in the listed order and the walk stops right after the first one the
predicate accepts (all of them are called when none is accepted). -/
def specCandidateTrace (p : String → Bool) : List String → List String
  | [] => []
  | e :: rest => if p e then [e] else e :: specCandidateTrace p rest

/-- The source condition userData.data truthy, an array, and of positive
length (src/server.js line 361), as a predicate on the data value. -/
def isNonEmptyJsArr : Json → Bool
  | .arr (_ :: _) => true
  | _ => false

/-- Whether a value is the JSON null (used to state that a response body is
not the raw null body the upstream sent). -/
def jsIsNull : Json → Bool
  | .null => true
  | _ => false

example : strHas "text/html; charset=utf-8" "application/json" = false := by decide
example : strHas "application/json; charset=utf-8" "application/json" = true := by decide
example : jsTruthy (.str "") = false := rfl
example : jsToDisplay (.arr [.num 1, .num 2]) = "1,2" := rfl

/-! ## Helper lemmas -/

/-- A successful variant-1 token body never carries a refresh_token key. -/
lemma buildTokenBody1_no_refresh (td b : Json) (h : buildTokenBody1 td = .ok b) :
    hasKey b "refresh_token" = false := by
  cases td <;>
    simp only [buildTokenBody1, jsMember, bind, Except.bind, pure, Except.pure,
      Except.ok.injEq, reduceCtorEq, false_implies] at h <;>
    (subst h; rfl)

/-- A successful variant-2 token body never carries a refresh_token key. -/
lemma buildTokenBody2_no_refresh (td b : Json) (h : buildTokenBody2 td = .ok b) :
    hasKey b "refresh_token" = false := by
  cases td <;>
    simp only [buildTokenBody2, jsMember, bind, Except.bind, pure, Except.pure,
      Except.ok.injEq, reduceCtorEq, false_implies] at h <;>
    (subst h; rfl)

/-- Every variant-1 exchange response body lacks a refresh_token key,
whatever branch produced it. -/
lemma oauthExchange1_body_no_refresh (code ru cv : Json) (cid csec : Option String)
    (o : FetchOutcome) :
    hasKey (oauthExchange1 code ru cv cid csec o).body "refresh_token" = false := by
  unfold oauthExchange1
  split
  · split
    · cases o with
      | failure m => rfl
      | success r =>
        simp only
        split
        · cases hj : r.jsonBody with
          | error m => simp only [hj]; rfl
          | ok td =>
            simp only [hj]
            cases hb : buildTokenBody1 td with
            | error m => simp only [hb]; rfl
            | ok b => simpa only [hb] using buildTokenBody1_no_refresh td b hb
        · rfl
    · rfl
  · rfl

/-- Every variant-2 exchange response body lacks a refresh_token key,
whatever branch produced it. -/
lemma oauthExchange2_body_no_refresh (code ru cv : Json) (cid csec : Option String)
    (o : FetchOutcome) :
    hasKey (oauthExchange2 code ru cv cid csec o).body "refresh_token" = false := by
  unfold oauthExchange2
  split
  · cases o with
    | failure m => rfl
    | success r =>
      simp only
      split
      · cases hj : r.jsonBody with
        | error m => simp only [hj]; rfl
        | ok td =>
          simp only [hj]
          cases hb : buildTokenBody2 td with
          | error m => simp only [hb]; rfl
          | ok b => simpa only [hb] using buildTokenBody2_no_refresh td b hb
      · rfl
  · rfl

/-! ## Claim theorems: token exchange -/

/-- Claim C2: for every successful token exchange (a 200 response), the
body sent to the client contains no refresh_token field, even when the
upstream token response includes one, in both /oauth/exchange variants.
The proof goes through the stronger fact that no branch of either handler
ever emits a body with a refresh_token key. -/
theorem oauthExchange_success_no_refresh_token (code ru cv : Json)
    (cid csec : Option String) (o : FetchOutcome) :
    ((oauthExchange1 code ru cv cid csec o).status = 200 →
      hasKey (oauthExchange1 code ru cv cid csec o).body "refresh_token" = false) ∧
    ((oauthExchange2 code ru cv cid csec o).status = 200 →
      hasKey (oauthExchange2 code ru cv cid csec o).body "refresh_token" = false) :=
  ⟨fun _ => oauthExchange1_body_no_refresh code ru cv cid csec o,
   fun _ => oauthExchange2_body_no_refresh code ru cv cid csec o⟩

/-- Witness for C2: a concrete exchange in each variant whose upstream token
response carries a refresh_token; both handlers answer 200 without it. -/
theorem oauthExchange_success_no_refresh_token_witness :
    ((oauthExchange1 (.str "c") (.str "r") (.str "v") (some "id") (some "sec")
        (.success ⟨200, some "application/json", "", .ok (.obj
          [("access_token", .str "at"), ("refresh_token", .str "secret"),
           ("token_type", .str "Bearer"), ("expires_in", .num 3600),
           ("scope", .str "user:read")]), []⟩)).status = 200 ∧
      hasKey (oauthExchange1 (.str "c") (.str "r") (.str "v") (some "id") (some "sec")
        (.success ⟨200, some "application/json", "", .ok (.obj
          [("access_token", .str "at"), ("refresh_token", .str "secret"),
           ("token_type", .str "Bearer"), ("expires_in", .num 3600),
           ("scope", .str "user:read")]), []⟩)).body "refresh_token" = false) ∧
    ((oauthExchange2 (.str "c") (.str "r") (.str "v") (some "id") (some "sec")
        (.success ⟨200, some "application/json", "", .ok (.obj
          [("access_token", .str "at"), ("refresh_token", .str "secret"),
           ("token_type", .str "Bearer"), ("expires_in", .num 3600),
           ("scope", .str "user:read")]), []⟩)).status = 200 ∧
      hasKey (oauthExchange2 (.str "c") (.str "r") (.str "v") (some "id") (some "sec")
        (.success ⟨200, some "application/json", "", .ok (.obj
          [("access_token", .str "at"), ("refresh_token", .str "secret"),
           ("token_type", .str "Bearer"), ("expires_in", .num 3600),
           ("scope", .str "user:read")]), []⟩)).body "refresh_token" = false) :=
  ⟨⟨rfl, (oauthExchange_success_no_refresh_token (.str "c") (.str "r") (.str "v")
      (some "id") (some "sec") _).1 rfl⟩,
   ⟨rfl, (oauthExchange_success_no_refresh_token (.str "c") (.str "r") (.str "v")
      (some "id") (some "sec") _).2 rfl⟩⟩

/-- Claim C3: a request missing any of code, redirect_uri or code_verifier
is answered 400 with the descriptive error body and triggers no outbound
call, in both variants. -/
theorem oauthExchange_missing_fields_400 (code ru cv : Json) (cid csec : Option String)
    (o : FetchOutcome)
    (h : (jsTruthy code && jsTruthy ru && jsTruthy cv) = false) :
    oauthExchange1 code ru cv cid csec o = ⟨400, missingParamsBody, []⟩ ∧
    oauthExchange2 code ru cv cid csec o = ⟨400, missingParamsBody, []⟩ := by
  unfold oauthExchange1 oauthExchange2
  rw [h]
  exact ⟨rfl, rfl⟩

/-- Witness for C3: a request with code present but code_verifier undefined
is rejected with 400 and no outbound call by both variants. -/
theorem oauthExchange_missing_fields_400_witness :
    ((jsTruthy (Json.str "abc") && jsTruthy (Json.str "https://game.example/cb")
        && jsTruthy Json.undefined) = false) ∧
    oauthExchange1 (.str "abc") (.str "https://game.example/cb") .undefined
      (some "id") (some "sec") (.failure "never reached") = ⟨400, missingParamsBody, []⟩ ∧
    oauthExchange2 (.str "abc") (.str "https://game.example/cb") .undefined
      (some "id") (some "sec") (.failure "never reached") = ⟨400, missingParamsBody, []⟩ := by
  refine ⟨rfl, ?_, ?_⟩
  · exact (oauthExchange_missing_fields_400 (.str "abc") (.str "https://game.example/cb")
      .undefined (some "id") (some "sec") (.failure "never reached") rfl).1
  · exact (oauthExchange_missing_fields_400 (.str "abc") (.str "https://game.example/cb")
      .undefined (some "id") (some "sec") (.failure "never reached") rfl).2

/-- Counterexample to claim C4: the claim also cites the variant-2 handler,
but that handler performs no credential check at all.  With all three
request fields present and no client id or secret configured, variant 2
still performs the outbound token call (here answered 200 by the upstream)
instead of returning the claimed 500 configuration error with zero
outbound calls. -/
theorem oauthExchange2_no_config_check_cex :
    (oauthExchange2 (.str "c") (.str "r") (.str "v") none none
      (.success ⟨200, some "application/json", "", .ok (.obj
        [("access_token", .str "at"), ("token_type", .str "Bearer"),
         ("expires_in", .num 3600), ("scope", .str "user:read")]), []⟩)).outbound.length = 1 ∧
    (oauthExchange2 (.str "c") (.str "r") (.str "v") none none
      (.success ⟨200, some "application/json", "", .ok (.obj
        [("access_token", .str "at"), ("token_type", .str "Bearer"),
         ("expires_in", .num 3600), ("scope", .str "user:read")]), []⟩)).status = 200 :=
  ⟨rfl, rfl⟩

/-- Claim C4 as amended: in the first variant, a request with all three
fields present but an unconfigured client id or secret is answered 500
with the configuration-error body and no outbound call is made; the
configuration check precedes any network call (the second variant has no
such check and proceeds straight to the outbound call). -/
theorem oauthExchange1_config_error_500 (code ru cv : Json) (cid csec : Option String)
    (o : FetchOutcome)
    (hf : (jsTruthy code && jsTruthy ru && jsTruthy cv) = true)
    (hc : isConfigValid cid csec = false) :
    oauthExchange1 code ru cv cid csec o =
      ⟨500, .obj [("error", .str "Server configuration error - missing credentials")], []⟩ := by
  unfold oauthExchange1
  rw [hf, hc]
  rfl

/-- Witness for C4 as amended: all fields present, secret missing, variant 1
answers 500 with the configuration-error body and makes no outbound call. -/
theorem oauthExchange1_config_error_500_witness :
    ((jsTruthy (Json.str "c") && jsTruthy (Json.str "r") && jsTruthy (Json.str "v")) = true) ∧
    isConfigValid (some "id") none = false ∧
    oauthExchange1 (.str "c") (.str "r") (.str "v") (some "id") none (.failure "never reached") =
      ⟨500, .obj [("error", .str "Server configuration error - missing credentials")], []⟩ :=
  ⟨rfl, rfl, oauthExchange1_config_error_500 (.str "c") (.str "r") (.str "v")
    (some "id") none (.failure "never reached") rfl rfl⟩

/-- Claim C10: in the first variant the missing-fields check precedes the
credentials check: a request missing a required field is answered 400 with
the missing-parameters body and no outbound call even when the server
credentials are entirely unconfigured. -/
theorem oauthExchange1_missing_fields_before_config (code ru cv : Json) (o : FetchOutcome)
    (h : (jsTruthy code && jsTruthy ru && jsTruthy cv) = false) :
    (oauthExchange1 code ru cv none none o).status = 400 ∧
    (oauthExchange1 code ru cv none none o).body = missingParamsBody ∧
    (oauthExchange1 code ru cv none none o).outbound = [] := by
  unfold oauthExchange1
  rw [h]
  exact ⟨rfl, rfl, rfl⟩

/-- Witness for C10: with no credentials configured and an undefined code,
variant 1 answers 400, not the 500 configuration error. -/
theorem oauthExchange1_missing_fields_before_config_witness :
    ((jsTruthy Json.undefined && jsTruthy (Json.str "r") && jsTruthy (Json.str "v")) = false) ∧
    (oauthExchange1 .undefined (.str "r") (.str "v") none none (.failure "never reached")).status = 400 ∧
    (oauthExchange1 .undefined (.str "r") (.str "v") none none (.failure "never reached")).body =
      missingParamsBody :=
  ⟨rfl, (oauthExchange1_missing_fields_before_config .undefined (.str "r") (.str "v")
      (.failure "never reached") rfl).1,
    (oauthExchange1_missing_fields_before_config .undefined (.str "r") (.str "v")
      (.failure "never reached") rfl).2.1⟩

/-! ## Claim theorems: emote relay -/

/-- Setting a header makes it readable with the set value. -/
lemma getHeader_setHeader_self (hs : List (String × String)) (k v : String) :
    getHeader (setHeader hs k v) k = some v := by
  induction hs with
  | nil => simp [setHeader, getHeader]
  | cons p rest ih =>
    obtain ⟨k0, v0⟩ := p
    by_cases h : (k0 == k) = true
    · simp [setHeader, getHeader, h]
    · simp only [Bool.not_eq_true] at h
      simp [setHeader, getHeader, h, ih]

/-- Setting one header leaves every other header unchanged. -/
lemma getHeader_setHeader_ne (hs : List (String × String)) (k k2 v : String)
    (hne : (k2 == k) = false) :
    getHeader (setHeader hs k2 v) k = getHeader hs k := by
  induction hs with
  | nil => simp [setHeader, getHeader, hne]
  | cons p rest ih =>
    obtain ⟨k0, v0⟩ := p
    by_cases h : (k0 == k2) = true
    · have hk : (k0 == k) = false := by
        have hk02 : k0 = k2 := eq_of_beq h
        rw [hk02]
        exact hne
      simp [setHeader, getHeader, h, hk, hne]
    · simp only [Bool.not_eq_true] at h
      by_cases h2 : (k0 == k) = true
      · simp [setHeader, getHeader, h, h2]
      · simp only [Bool.not_eq_true] at h2
        simp [setHeader, getHeader, h, h2, ih]

/-- Lookup of the three claim-relevant headers through the header stack the
emote handlers build with res.set. -/
lemma emoteHeaderStack (base : List (String × String)) (ct : String) :
    getHeader (setHeader (setHeader (setHeader (setHeader (setHeader base
        "Content-Type" ct) "Access-Control-Allow-Origin" "*")
        "Access-Control-Allow-Methods" "GET")
        "Access-Control-Allow-Headers" "Content-Type")
        "Cache-Control" "public, max-age=3600") "Content-Type" = some ct ∧
    getHeader (setHeader (setHeader (setHeader (setHeader (setHeader base
        "Content-Type" ct) "Access-Control-Allow-Origin" "*")
        "Access-Control-Allow-Methods" "GET")
        "Access-Control-Allow-Headers" "Content-Type")
        "Cache-Control" "public, max-age=3600") "Cache-Control" =
      some "public, max-age=3600" ∧
    getHeader (setHeader (setHeader (setHeader (setHeader (setHeader base
        "Content-Type" ct) "Access-Control-Allow-Origin" "*")
        "Access-Control-Allow-Methods" "GET")
        "Access-Control-Allow-Headers" "Content-Type")
        "Cache-Control" "public, max-age=3600") "Access-Control-Allow-Origin" =
      some "*" := by
  have h1 : (("Cache-Control" : String) == "Content-Type") = false := by decide
  have h2 : (("Access-Control-Allow-Headers" : String) == "Content-Type") = false := by decide
  have h3 : (("Access-Control-Allow-Methods" : String) == "Content-Type") = false := by decide
  have h4 : (("Access-Control-Allow-Origin" : String) == "Content-Type") = false := by decide
  have h5 : (("Cache-Control" : String) == "Access-Control-Allow-Origin") = false := by decide
  have h6 : (("Access-Control-Allow-Headers" : String) == "Access-Control-Allow-Origin") = false := by
    decide
  have h7 : (("Access-Control-Allow-Methods" : String) == "Access-Control-Allow-Origin") = false := by
    decide
  refine ⟨?_, ?_, ?_⟩
  · rw [getHeader_setHeader_ne _ _ _ _ h1, getHeader_setHeader_ne _ _ _ _ h2,
      getHeader_setHeader_ne _ _ _ _ h3, getHeader_setHeader_ne _ _ _ _ h4,
      getHeader_setHeader_self]
  · rw [getHeader_setHeader_self]
  · rw [getHeader_setHeader_ne _ _ _ _ h5, getHeader_setHeader_ne _ _ _ _ h6,
      getHeader_setHeader_ne _ _ _ _ h7, getHeader_setHeader_self]

/-- Claim C6: the emote relay forwards a non-success upstream status with the
generic error body; on success it answers with the upstream content-type
(image/gif when the upstream sent none) and the one-hour public cache
directive; a transport-level exception yields 500 with the generic body.
All parts hold in both variants, and for any header state the CORS
middleware left behind. -/
theorem proxyEmote_relay_behavior (base : List (String × String)) (o : FetchOutcome) :
    emoteContentType none = "image/gif" ∧
    (∀ r, o = .success r → statusOk r.status = false →
      (proxyEmote1 base o).status = r.status ∧
      (proxyEmote1 base o).body = some (.obj [("error", .str "Failed to fetch emote")]) ∧
      (proxyEmote2 base o).status = r.status ∧
      (proxyEmote2 base o).body = some (.obj [("error", .str "Failed to fetch emote")])) ∧
    (∀ r, o = .success r → statusOk r.status = true →
      getHeader (proxyEmote1 base o).headers "Content-Type" = some (emoteContentType r.contentType) ∧
      getHeader (proxyEmote1 base o).headers "Cache-Control" = some "public, max-age=3600" ∧
      getHeader (proxyEmote2 base o).headers "Content-Type" = some (emoteContentType r.contentType) ∧
      getHeader (proxyEmote2 base o).headers "Cache-Control" = some "public, max-age=3600") ∧
    (∀ m, o = .failure m →
      (proxyEmote1 base o).status = 500 ∧
      (proxyEmote1 base o).body = some (.obj [("error", .str "Internal server error")]) ∧
      (proxyEmote2 base o).status = 500 ∧
      (proxyEmote2 base o).body = some (.obj [("error", .str "Internal server error")])) := by
  refine ⟨rfl, ?_, ?_, ?_⟩
  · rintro r rfl hs
    simp [proxyEmote1, proxyEmote2, hs]
  · rintro r rfl hs
    simp only [proxyEmote1, proxyEmote2, hs, if_pos, setAll]
    exact ⟨(emoteHeaderStack base (emoteContentType r.contentType)).1,
      (emoteHeaderStack base (emoteContentType r.contentType)).2.1,
      (emoteHeaderStack base (emoteContentType r.contentType)).1,
      (emoteHeaderStack base (emoteContentType r.contentType)).2.1⟩
  · rintro m rfl
    simp [proxyEmote1, proxyEmote2]

/-- Witness for C6: the three branches at concrete inputs, through both
variants: a 404 upstream is forwarded as 404, a success with an image
content-type is relayed with that content-type and the cache directive,
and a transport failure yields 500. -/
theorem proxyEmote_relay_behavior_witness :
    ((proxyEmote1 [] (.success ⟨404, none, "gone", .error "not json", []⟩)).status = 404 ∧
      (proxyEmote2 [] (.success ⟨404, none, "gone", .error "not json", []⟩)).status = 404) ∧
    (getHeader (proxyEmote1 [] (.success ⟨200, some "image/png", "", .error "bin", [1, 2]⟩)).headers
        "Content-Type" = some "image/png" ∧
      getHeader (proxyEmote2 [] (.success ⟨200, some "image/png", "", .error "bin", [1, 2]⟩)).headers
        "Cache-Control" = some "public, max-age=3600") ∧
    ((proxyEmote1 [] (.failure "ECONNRESET")).status = 500 ∧
      (proxyEmote2 [] (.failure "ECONNRESET")).status = 500) :=
  ⟨⟨((proxyEmote_relay_behavior [] (.success ⟨404, none, "gone", .error "not json", []⟩)).2.1
        _ rfl rfl).1,
    ((proxyEmote_relay_behavior [] (.success ⟨404, none, "gone", .error "not json", []⟩)).2.1
        _ rfl rfl).2.2.1⟩,
   ⟨((proxyEmote_relay_behavior [] (.success ⟨200, some "image/png", "", .error "bin", [1, 2]⟩)).2.2.1
        _ rfl rfl).1,
    ((proxyEmote_relay_behavior [] (.success ⟨200, some "image/png", "", .error "bin", [1, 2]⟩)).2.2.1
        _ rfl rfl).2.2.2⟩,
   ⟨((proxyEmote_relay_behavior [] (.failure "ECONNRESET")).2.2.2 _ rfl).1,
    ((proxyEmote_relay_behavior [] (.failure "ECONNRESET")).2.2.2 _ rfl).2.2.1⟩⟩

/-- Claim C8: on a successful upstream fetch the emote response carries
Access-Control-Allow-Origin * in both variants.  The base headers stand
for whatever the credentialed allow-list CORS middleware already set for
the request origin; res.set overwrites them, so the wildcard wins
regardless of the origin. -/
theorem proxyEmote_cors_wildcard (base : List (String × String)) (o : FetchOutcome)
    (r : UpstreamResp) (h : o = .success r) (hok : statusOk r.status = true) :
    getHeader (proxyEmote1 base o).headers "Access-Control-Allow-Origin" = some "*" ∧
    getHeader (proxyEmote2 base o).headers "Access-Control-Allow-Origin" = some "*" := by
  subst h
  simp only [proxyEmote1, proxyEmote2, hok, if_pos, setAll]
  exact ⟨(emoteHeaderStack base (emoteContentType r.contentType)).2.2,
    (emoteHeaderStack base (emoteContentType r.contentType)).2.2⟩

/-- Witness for C8: even when the CORS middleware already pinned the allow-list
origin with credentials, the successful emote response advertises the
wildcard origin in both variants. -/
theorem proxyEmote_cors_wildcard_witness :
    statusOk 200 = true ∧
    getHeader (proxyEmote1
        [("Access-Control-Allow-Origin", "https://parachutegame.netlify.app"),
         ("Access-Control-Allow-Credentials", "true")]
        (.success ⟨200, some "image/gif", "", .error "bin", [7]⟩)).headers
      "Access-Control-Allow-Origin" = some "*" ∧
    getHeader (proxyEmote2
        [("Access-Control-Allow-Origin", "https://parachutegame.netlify.app"),
         ("Access-Control-Allow-Credentials", "true")]
        (.success ⟨200, some "image/gif", "", .error "bin", [7]⟩)).headers
      "Access-Control-Allow-Origin" = some "*" :=
  ⟨rfl,
   (proxyEmote_cors_wildcard
      [("Access-Control-Allow-Origin", "https://parachutegame.netlify.app"),
       ("Access-Control-Allow-Credentials", "true")]
      (.success ⟨200, some "image/gif", "", .error "bin", [7]⟩) _ rfl rfl).1,
   (proxyEmote_cors_wildcard
      [("Access-Control-Allow-Origin", "https://parachutegame.netlify.app"),
       ("Access-Control-Allow-Credentials", "true")]
      (.success ⟨200, some "image/gif", "", .error "bin", [7]⟩) _ rfl rfl).2⟩

/-! ## Claim theorems: user lookup with fallback -/

/-- A candidate whose fetch stage fails (transport error, non-success
status, non-JSON content-type, or unparseable body) fails with that same
error message. -/
lemma candidateStep_error_of_fetch (o : String → FetchOutcome) (e : String) (m : String)
    (h : fetchToJson (o e) = .error m) : candidateStep o e = .error m := by
  simp [candidateStep, h, bind, Except.bind]

/-- The candidate calls the loop performs are exactly the spec-side trace:
the endpoints in order up to and including the first one whose step
succeeds, or all of them when every step fails. -/
lemma runCandidates_calls (o : String → FetchOutcome) :
    ∀ (eps : List String) (le : Option String),
      (runCandidates o eps le).candidateCalls =
        specCandidateTrace (fun e => exceptOk (candidateStep o e)) eps := by
  intro eps
  induction eps with
  | nil => intro le; rfl
  | cons e rest ih =>
    intro le
    cases h : candidateStep o e with
    | ok v =>
      obtain ⟨b, ch⟩ := v
      simp [runCandidates, specCandidateTrace, h, exceptOk]
    | error m =>
      simp [runCandidates, specCandidateTrace, h, exceptOk, ih]

/-- When every candidate step fails with the message given by msgF, the
loop walks the whole list and reports 500 with the message of the last
candidate (or the lastErr fallback on an empty list). -/
lemma runCandidates_all_fail (o : String → FetchOutcome) (msgF : String → String) :
    ∀ (eps : List String) (le : Option String),
      (∀ e ∈ eps, candidateStep o e = .error (msgF e)) →
      runCandidates o eps le =
        ⟨500,
         .obj [("error", .str "Internal server error"),
               ("details", .str (match eps.getLast? with
                 | some e => msgF e
                 | none => le.getD "All API endpoints failed"))],
         eps, []⟩ := by
  intro eps
  induction eps with
  | nil => intro le h; rfl
  | cons e rest ih =>
    intro le h
    have he : candidateStep o e = .error (msgF e) := h e (by simp)
    have hr := ih (some (msgF e)) (fun x hx => h x (by simp [hx]))
    simp only [runCandidates, he, hr]
    cases rest with
    | nil => rfl
    | cons f fs => rfl

/-- Counterexample to claim C1: an upstream answering the first (new-style)
candidate with HTTP 200, a JSON content-type and the valid JSON body null
is accepted in the claim's sense (success status, JSON content-type,
parseable body, no thrown call), yet the handler does not stop there: the
member access userData.data on the null body throws a TypeError inside the
per-candidate try, so the loop moves on and calls all five candidates. -/
theorem getKickUser_stop_at_accepted_cex :
    claimAccepts ((fun u =>
      if u == "https://api.kick.com/public/v1/users" then
        FetchOutcome.success ⟨200, some "application/json", "null", .ok .null, []⟩
      else FetchOutcome.failure ("connection refused: " ++ u))
      "https://api.kick.com/public/v1/users") = true ∧
    (getKickUser (.str "tok") "https://kick.com/api/v2" (fun u =>
      if u == "https://api.kick.com/public/v1/users" then
        FetchOutcome.success ⟨200, some "application/json", "null", .ok .null, []⟩
      else FetchOutcome.failure ("connection refused: " ++ u))).candidateCalls =
      kickUserEndpoints "https://kick.com/api/v2" ∧
    (getKickUser (.str "tok") "https://kick.com/api/v2" (fun u =>
      if u == "https://api.kick.com/public/v1/users" then
        FetchOutcome.success ⟨200, some "application/json", "null", .ok .null, []⟩
      else FetchOutcome.failure ("connection refused: " ++ u))).candidateCalls ≠
      ["https://api.kick.com/public/v1/users"] := by
  refine ⟨rfl, rfl, ?_⟩
  decide

/-- Claim C1 as amended: for every user-lookup request with a truthy access
token the handler tries the candidate endpoints in the fixed listed order
and stops at the first candidate whose whole step succeeds, calling no
further candidate; a step fails exactly when the HTTP status is
non-success, the content-type is not JSON, the call throws, the body is
not valid JSON, or the post-parse handling of the accepted body itself
throws (which the new-style endpoint does on a JSON null body or a null
first data element).  In particular, when only the third candidate
succeeds, exactly the first three are called, in order. -/
theorem getKickUser_candidate_order (tok : Json) (apiBase : String)
    (o : String → FetchOutcome) (ht : jsTruthy tok = true) :
    (getKickUser tok apiBase o).candidateCalls =
      specCandidateTrace (fun e => exceptOk (candidateStep o e)) (kickUserEndpoints apiBase) := by
  unfold getKickUser
  rw [ht]
  exact runCandidates_calls o (kickUserEndpoints apiBase) none

/-- Witness for C1 as amended: with stub endpoints where only the third
candidate succeeds, exactly the first three are called, in order. -/
theorem getKickUser_candidate_order_witness :
    jsTruthy (Json.str "tok") = true ∧
    (getKickUser (.str "tok") "https://kick.com/api/v2" (fun u =>
      if u == "https://kick.com/api/v1/user" then
        FetchOutcome.success ⟨200, some "application/json", "", .ok (.obj [("id", .num 7)]), []⟩
      else FetchOutcome.failure ("connection refused: " ++ u))).candidateCalls =
      ["https://api.kick.com/public/v1/users", "https://kick.com/api/v2/user",
       "https://kick.com/api/v1/user"] := by
  refine ⟨rfl, ?_⟩
  rw [getKickUser_candidate_order (.str "tok") "https://kick.com/api/v2" (fun u =>
    if u == "https://kick.com/api/v1/user" then
      FetchOutcome.success ⟨200, some "application/json", "", .ok (.obj [("id", .num 7)]), []⟩
    else FetchOutcome.failure ("connection refused: " ++ u)) rfl]
  rfl

/-- Claim C5: when every candidate fails in one of the fetch-stage modes
(non-success status, non-JSON content-type, thrown call, or unparseable
body), each with message msgF of its endpoint, the handler answers 500
with the generic error and the details field carrying the failure message
of the last candidate attempted. -/
theorem getKickUser_all_fail_last_error (tok : Json) (apiBase : String)
    (o : String → FetchOutcome) (msgF : String → String)
    (ht : jsTruthy tok = true)
    (h : ∀ e ∈ kickUserEndpoints apiBase, fetchToJson (o e) = .error (msgF e)) :
    (getKickUser tok apiBase o).status = 500 ∧
    (getKickUser tok apiBase o).body =
      .obj [("error", .str "Internal server error"),
            ("details", .str (msgF "https://kick.com/api/v1/user/me"))] := by
  have h2 : ∀ e ∈ kickUserEndpoints apiBase, candidateStep o e = .error (msgF e) :=
    fun e he => candidateStep_error_of_fetch o e (msgF e) (h e he)
  unfold getKickUser
  rw [ht]
  rw [runCandidates_all_fail o msgF (kickUserEndpoints apiBase) none h2]
  exact ⟨rfl, rfl⟩

/-- Witness for C5: every candidate fails with a transport error carrying
its endpoint in the message; the handler reports 500 with the failure
message of the fifth and last candidate. -/
theorem getKickUser_all_fail_last_error_witness :
    jsTruthy (Json.str "tok") = true ∧
    (getKickUser (.str "tok") "https://kick.com/api/v2"
      (fun u => FetchOutcome.failure ("refused: " ++ u))).status = 500 ∧
    (getKickUser (.str "tok") "https://kick.com/api/v2"
      (fun u => FetchOutcome.failure ("refused: " ++ u))).body =
      .obj [("error", .str "Internal server error"),
            ("details", .str "refused: https://kick.com/api/v1/user/me")] :=
  ⟨rfl,
   (getKickUser_all_fail_last_error (.str "tok") "https://kick.com/api/v2"
      (fun u => FetchOutcome.failure ("refused: " ++ u))
      (fun u => "refused: " ++ u) rfl (fun _ _ => rfl)).1,
   (getKickUser_all_fail_last_error (.str "tok") "https://kick.com/api/v2"
      (fun u => FetchOutcome.failure ("refused: " ++ u))
      (fun u => "refused: " ++ u) rfl (fun _ _ => rfl)).2⟩

/-- When one member access on a value succeeded, every member access on it
succeeds and agrees with the optional-chaining lookup (only null and
undefined receivers throw). -/
lemma jsMember_ok_of_other_ok (user : Json) (k k2 : String) (v : Json)
    (h : jsMember user k = .ok v) : jsMember user k2 = .ok (jsMemberOpt user k2) := by
  cases user <;> simp_all [jsMember, jsMemberOpt]

/-- Counterexample to claim C7: the new-style endpoint is accepted with the
non-empty data array [null], but instead of answering 200 with a
normalized profile the handler throws on the member access user.name
inside the per-candidate try, falls through to the remaining candidates
(all failing here) and answers 500. -/
theorem getKickUser_newstyle_null_element_cex :
    claimAccepts ((fun u =>
      if u == "https://api.kick.com/public/v1/users" then
        FetchOutcome.success ⟨200, some "application/json", "",
          .ok (.obj [("data", .arr [.null])]), []⟩
      else FetchOutcome.failure "network down")
      "https://api.kick.com/public/v1/users") = true ∧
    jsMember (Json.obj [("data", .arr [.null])]) "data" = .ok (.arr [.null]) ∧
    (getKickUser (.str "tok") "https://kick.com/api/v2" (fun u =>
      if u == "https://api.kick.com/public/v1/users" then
        FetchOutcome.success ⟨200, some "application/json", "",
          .ok (.obj [("data", .arr [.null])]), []⟩
      else FetchOutcome.failure "network down")).status = 500 :=
  ⟨rfl, rfl, rfl⟩

/-- Claim C7 as amended: when the accepted response comes from the
new-style endpoint with a non-empty array under data whose first element
is a non-null object value (so that member access on it does not throw),
the handler answers 200 with the body normalized to the shape id,
username, email, profile_picture and chatroom.id; and when the secondary
chatroom lookup fails with a transport error or a non-success status, the
chatroom id degrades to null while the request still returns 200. -/
theorem getKickUser_newstyle_normalized (tok : Json) (apiBase : String)
    (o : String → FetchOutcome) (r : UpstreamResp) (u user uname : Json)
    (elems : List Json)
    (ht : jsTruthy tok = true)
    (h1 : o "https://api.kick.com/public/v1/users" = .success r)
    (h2 : statusOk r.status = true)
    (h3 : jsonCtOk r.contentType = true)
    (h4 : r.jsonBody = .ok u)
    (h5 : jsMember u "data" = .ok (.arr (user :: elems)))
    (h6 : jsMember user "name" = .ok uname) :
    (getKickUser tok apiBase o).status = 200 ∧
    (getKickUser tok apiBase o).body =
      .obj [("id", jsMemberOpt user "user_id"), ("username", uname),
            ("email", jsMemberOpt user "email"),
            ("profile_picture", jsMemberOpt user "profile_picture"),
            ("chatroom", .obj [("id",
              channelLookup o ("https://kick.com/api/v1/channels/" ++ jsToDisplay uname))])] ∧
    (∀ m, o ("https://kick.com/api/v1/channels/" ++ jsToDisplay uname) = .failure m →
      channelLookup o ("https://kick.com/api/v1/channels/" ++ jsToDisplay uname) = .null) ∧
    (∀ cr, o ("https://kick.com/api/v1/channels/" ++ jsToDisplay uname) = .success cr →
      statusOk cr.status = false →
      channelLookup o ("https://kick.com/api/v1/channels/" ++ jsToDisplay uname) = .null) := by
  have hm : strHas "https://api.kick.com/public/v1/users" newStyleMarker = true := by decide
  have hfetch : fetchToJson (o "https://api.kick.com/public/v1/users") = .ok u := by
    rw [h1]; simp [fetchToJson, h2, h3, h4]
  have hid := jsMember_ok_of_other_ok user "name" "user_id" uname h6
  have hem := jsMember_ok_of_other_ok user "name" "email" uname h6
  have hpic := jsMember_ok_of_other_ok user "name" "profile_picture" uname h6
  have hproc : processAccepted o "https://api.kick.com/public/v1/users" u =
      .ok (.obj [("id", jsMemberOpt user "user_id"), ("username", uname),
            ("email", jsMemberOpt user "email"),
            ("profile_picture", jsMemberOpt user "profile_picture"),
            ("chatroom", .obj [("id",
              channelLookup o ("https://kick.com/api/v1/channels/" ++ jsToDisplay uname))])],
          ["https://kick.com/api/v1/channels/" ++ jsToDisplay uname]) := by
    simp [processAccepted, hm, h5, h6, hid, hem, hpic, bind, Except.bind, pure, Except.pure]
  have hstep : candidateStep o "https://api.kick.com/public/v1/users" =
      .ok (.obj [("id", jsMemberOpt user "user_id"), ("username", uname),
            ("email", jsMemberOpt user "email"),
            ("profile_picture", jsMemberOpt user "profile_picture"),
            ("chatroom", .obj [("id",
              channelLookup o ("https://kick.com/api/v1/channels/" ++ jsToDisplay uname))])],
          ["https://kick.com/api/v1/channels/" ++ jsToDisplay uname]) := by
    simp [candidateStep, hfetch, hproc, bind, Except.bind]
  unfold getKickUser
  rw [ht]
  simp only [kickUserEndpoints, runCandidates, hstep]
  refine ⟨rfl, rfl, ?_, ?_⟩
  · intro m hm2
    simp [channelLookup, hm2]
  · intro cr hcr hnok
    simp [channelLookup, hcr, hnok]

/-- Witness for C7 as amended: the new-style endpoint returns one full user
object, the secondary channel lookup fails with a transport error, and the
handler answers 200 with the normalized shape and a null chatroom id. -/
theorem getKickUser_newstyle_normalized_witness :
    jsTruthy (Json.str "t") = true ∧
    ((fun u =>
      if u == "https://api.kick.com/public/v1/users" then
        FetchOutcome.success ⟨200, some "application/json", "",
          .ok (.obj [("data", .arr [.obj [("user_id", .num 5), ("name", .str "alice"),
            ("email", .str "alice@example.com"), ("profile_picture", .str "p.png")]])]), []⟩
      else FetchOutcome.failure "down") "https://kick.com/api/v1/channels/alice")
      = FetchOutcome.failure "down" ∧
    (getKickUser (.str "t") "https://kick.com/api/v2" (fun u =>
      if u == "https://api.kick.com/public/v1/users" then
        FetchOutcome.success ⟨200, some "application/json", "",
          .ok (.obj [("data", .arr [.obj [("user_id", .num 5), ("name", .str "alice"),
            ("email", .str "alice@example.com"), ("profile_picture", .str "p.png")]])]), []⟩
      else FetchOutcome.failure "down")).status = 200 ∧
    (getKickUser (.str "t") "https://kick.com/api/v2" (fun u =>
      if u == "https://api.kick.com/public/v1/users" then
        FetchOutcome.success ⟨200, some "application/json", "",
          .ok (.obj [("data", .arr [.obj [("user_id", .num 5), ("name", .str "alice"),
            ("email", .str "alice@example.com"), ("profile_picture", .str "p.png")]])]), []⟩
      else FetchOutcome.failure "down")).body =
      .obj [("id", .num 5), ("username", .str "alice"),
            ("email", .str "alice@example.com"),
            ("profile_picture", .str "p.png"),
            ("chatroom", .obj [("id", .null)])] :=
  ⟨rfl, rfl,
   (getKickUser_newstyle_normalized (.str "t") "https://kick.com/api/v2" (fun u =>
      if u == "https://api.kick.com/public/v1/users" then
        FetchOutcome.success ⟨200, some "application/json", "",
          .ok (.obj [("data", .arr [.obj [("user_id", .num 5), ("name", .str "alice"),
            ("email", .str "alice@example.com"), ("profile_picture", .str "p.png")]])]), []⟩
      else FetchOutcome.failure "down")
      ⟨200, some "application/json", "",
        .ok (.obj [("data", .arr [.obj [("user_id", .num 5), ("name", .str "alice"),
          ("email", .str "alice@example.com"), ("profile_picture", .str "p.png")]])]), []⟩
      (.obj [("data", .arr [.obj [("user_id", .num 5), ("name", .str "alice"),
        ("email", .str "alice@example.com"), ("profile_picture", .str "p.png")]])])
      (.obj [("user_id", .num 5), ("name", .str "alice"),
        ("email", .str "alice@example.com"), ("profile_picture", .str "p.png")])
      (.str "alice") [] rfl rfl rfl rfl rfl rfl rfl).1,
   (getKickUser_newstyle_normalized (.str "t") "https://kick.com/api/v2" (fun u =>
      if u == "https://api.kick.com/public/v1/users" then
        FetchOutcome.success ⟨200, some "application/json", "",
          .ok (.obj [("data", .arr [.obj [("user_id", .num 5), ("name", .str "alice"),
            ("email", .str "alice@example.com"), ("profile_picture", .str "p.png")]])]), []⟩
      else FetchOutcome.failure "down")
      ⟨200, some "application/json", "",
        .ok (.obj [("data", .arr [.obj [("user_id", .num 5), ("name", .str "alice"),
          ("email", .str "alice@example.com"), ("profile_picture", .str "p.png")]])]), []⟩
      (.obj [("data", .arr [.obj [("user_id", .num 5), ("name", .str "alice"),
        ("email", .str "alice@example.com"), ("profile_picture", .str "p.png")]])])
      (.obj [("user_id", .num 5), ("name", .str "alice"),
        ("email", .str "alice@example.com"), ("profile_picture", .str "p.png")])
      (.str "alice") [] rfl rfl rfl rfl rfl rfl rfl).2.1⟩

/-- Counterexample to claim C9: the new-style endpoint is accepted with the
valid JSON body null, which lacks a data key, yet the handler does not
return that raw body with 200: the member access userData.data throws on
the null body, the loop advances, and the answer comes from the second
candidate instead. -/
theorem getKickUser_passthrough_null_body_cex :
    claimAccepts ((fun u =>
      if u == "https://api.kick.com/public/v1/users" then
        FetchOutcome.success ⟨200, some "application/json", "null", .ok .null, []⟩
      else if u == "https://example.com/api/user" then
        FetchOutcome.success ⟨200, some "application/json", "",
          .ok (.obj [("ok", .bool true)]), []⟩
      else FetchOutcome.failure "network down")
      "https://api.kick.com/public/v1/users") = true ∧
    (getKickUser (.str "tok") "https://example.com/api" (fun u =>
      if u == "https://api.kick.com/public/v1/users" then
        FetchOutcome.success ⟨200, some "application/json", "null", .ok .null, []⟩
      else if u == "https://example.com/api/user" then
        FetchOutcome.success ⟨200, some "application/json", "",
          .ok (.obj [("ok", .bool true)]), []⟩
      else FetchOutcome.failure "network down")).candidateCalls =
      ["https://api.kick.com/public/v1/users", "https://example.com/api/user"] ∧
    jsIsNull (getKickUser (.str "tok") "https://example.com/api" (fun u =>
      if u == "https://api.kick.com/public/v1/users" then
        FetchOutcome.success ⟨200, some "application/json", "null", .ok .null, []⟩
      else if u == "https://example.com/api/user" then
        FetchOutcome.success ⟨200, some "application/json", "",
          .ok (.obj [("ok", .bool true)]), []⟩
      else FetchOutcome.failure "network down")).body = false :=
  ⟨rfl, rfl, rfl⟩

/-- Claim C9 as amended: when the accepted response of the new-style
endpoint has a body on which the data member access does not throw (any
value except JSON null) and that data member is missing, not an array, or
an empty array, the handler returns the raw upstream body unmodified with
status 200, calling no further candidate and no channel lookup. -/
theorem getKickUser_newstyle_passthrough (tok : Json) (apiBase : String)
    (o : String → FetchOutcome) (r : UpstreamResp) (u d : Json)
    (ht : jsTruthy tok = true)
    (h1 : o "https://api.kick.com/public/v1/users" = .success r)
    (h2 : statusOk r.status = true)
    (h3 : jsonCtOk r.contentType = true)
    (h4 : r.jsonBody = .ok u)
    (h5 : jsMember u "data" = .ok d)
    (h6 : isNonEmptyJsArr d = false) :
    (getKickUser tok apiBase o).status = 200 ∧
    (getKickUser tok apiBase o).body = u ∧
    (getKickUser tok apiBase o).candidateCalls = ["https://api.kick.com/public/v1/users"] ∧
    (getKickUser tok apiBase o).channelCalls = [] := by
  have hm : strHas "https://api.kick.com/public/v1/users" newStyleMarker = true := by decide
  have hfetch : fetchToJson (o "https://api.kick.com/public/v1/users") = .ok u := by
    rw [h1]; simp [fetchToJson, h2, h3, h4]
  have hproc : processAccepted o "https://api.kick.com/public/v1/users" u = .ok (u, []) := by
    cases d with
    | arr es =>
      cases es with
      | nil => simp [processAccepted, hm, h5, bind, Except.bind, pure, Except.pure]
      | cons x xs => simp [isNonEmptyJsArr] at h6
    | undefined => simp [processAccepted, hm, h5, bind, Except.bind, pure, Except.pure]
    | null => simp [processAccepted, hm, h5, bind, Except.bind, pure, Except.pure]
    | bool b => simp [processAccepted, hm, h5, bind, Except.bind, pure, Except.pure]
    | num n => simp [processAccepted, hm, h5, bind, Except.bind, pure, Except.pure]
    | str s => simp [processAccepted, hm, h5, bind, Except.bind, pure, Except.pure]
    | obj fs => simp [processAccepted, hm, h5, bind, Except.bind, pure, Except.pure]
  have hstep : candidateStep o "https://api.kick.com/public/v1/users" = .ok (u, []) := by
    simp [candidateStep, hfetch, hproc, bind, Except.bind]
  unfold getKickUser
  rw [ht]
  simp only [kickUserEndpoints, runCandidates, hstep]
  exact ⟨rfl, rfl, rfl, rfl⟩

/-- Witness for C9 as amended: the new-style endpoint answers 200 with a
JSON object that has no data key; the handler passes it through verbatim
with 200, after a single candidate call and no channel call. -/
theorem getKickUser_newstyle_passthrough_witness :
    jsTruthy (Json.str "t") = true ∧
    (getKickUser (.str "t") "https://kick.com/api/v2" (fun u =>
      if u == "https://api.kick.com/public/v1/users" then
        FetchOutcome.success ⟨200, some "application/json", "",
          .ok (.obj [("message", .str "no data")]), []⟩
      else FetchOutcome.failure "network down")).status = 200 ∧
    (getKickUser (.str "t") "https://kick.com/api/v2" (fun u =>
      if u == "https://api.kick.com/public/v1/users" then
        FetchOutcome.success ⟨200, some "application/json", "",
          .ok (.obj [("message", .str "no data")]), []⟩
      else FetchOutcome.failure "network down")).body =
      .obj [("message", .str "no data")] ∧
    (getKickUser (.str "t") "https://kick.com/api/v2" (fun u =>
      if u == "https://api.kick.com/public/v1/users" then
        FetchOutcome.success ⟨200, some "application/json", "",
          .ok (.obj [("message", .str "no data")]), []⟩
      else FetchOutcome.failure "network down")).candidateCalls =
      ["https://api.kick.com/public/v1/users"] :=
  ⟨rfl,
   (getKickUser_newstyle_passthrough (.str "t") "https://kick.com/api/v2" (fun u =>
      if u == "https://api.kick.com/public/v1/users" then
        FetchOutcome.success ⟨200, some "application/json", "",
          .ok (.obj [("message", .str "no data")]), []⟩
      else FetchOutcome.failure "network down")
      ⟨200, some "application/json", "", .ok (.obj [("message", .str "no data")]), []⟩
      (.obj [("message", .str "no data")]) .undefined
      rfl rfl rfl rfl rfl rfl rfl).1,
   (getKickUser_newstyle_passthrough (.str "t") "https://kick.com/api/v2" (fun u =>
      if u == "https://api.kick.com/public/v1/users" then
        FetchOutcome.success ⟨200, some "application/json", "",
          .ok (.obj [("message", .str "no data")]), []⟩
      else FetchOutcome.failure "network down")
      ⟨200, some "application/json", "", .ok (.obj [("message", .str "no data")]), []⟩
      (.obj [("message", .str "no data")]) .undefined
      rfl rfl rfl rfl rfl rfl rfl).2.1,
   (getKickUser_newstyle_passthrough (.str "t") "https://kick.com/api/v2" (fun u =>
      if u == "https://api.kick.com/public/v1/users" then
        FetchOutcome.success ⟨200, some "application/json", "",
          .ok (.obj [("message", .str "no data")]), []⟩
      else FetchOutcome.failure "network down")
      ⟨200, some "application/json", "", .ok (.obj [("message", .str "no data")]), []⟩
      (.obj [("message", .str "no data")]) .undefined
      rfl rfl rfl rfl rfl rfl rfl).2.2.1⟩
